import Mathlib

/-!
Shallow embedding of the asynchronous batching/delivery core of the
`gelf_logger` crate (the `batch.rs` / `buffer.rs` / `output.rs` /
`formatter.rs` / `result.rs` version of the design).

Records are opaque to this core, so every definition is parametric in a
type `R` of log records.  Foreign error payloads (`std::io::Error`,
`serde_json::Error`, ...) are modelled as opaque numeric codes.  The
network is modelled as an oracle: the dispatcher-level model receives the
outcome of each outbound `send` call from an oracle indexed by the number
of calls made so far, and the connection-level model receives per-call
connect/write outcomes the same way.
-/

namespace GelfLogger

/-- `buffer.rs`, `enum Event`: commands sent over the channel. -/
inductive Event (R : Type) where
  | flush
  | data (record : R)
  deriving DecidableEq

/-- `result.rs`, `enum Error`.  Payloads of foreign error types are opaque
numeric codes; the channel errors carry the `Event` that failed to be sent,
as in the source. -/
inductive Error (R : Type) where
  | fullChannelError (e : Event R)
  | channelDisconnectedError (e : Event R)
  | ioError (code : Nat)
  | jsonSerializerError (code : Nat)
  | logError (code : Nat)
  | tlsError (code : Nat)
  | valueSerializerError (code : Nat)
  deriving DecidableEq

/-- Outcome of one `GelfTcpOutput::send` call as observed by
`Buffer::flush` (`Ok(_)` or `Err(exc)`). -/
inductive SendResult (R : Type) where
  | ok
  | err (e : Error R)
  deriving DecidableEq

/-- `buffer.rs`, `struct Buffer`: the fields mutated by the loop body.
The channel receiver and the output are supplied externally in the model;
`buffer_size` and `buffer_duration` are passed as parameters where used. -/
structure BufferState (R : Type) where
  items : List R
  errors : List (Error R)
  deriving DecidableEq

/-- `buffer.rs`, `Buffer::flush`: on `Ok` clear `items`; on `Err` push the
error and, once five errors have accumulated, print them and clear the
error list.  `items` is untouched on the error path. -/
def Buffer.flush {R : Type} (st : BufferState R) : SendResult R → BufferState R
  | SendResult.ok => { st with items := [] }
  | SendResult.err exc =>
      let errors := st.errors ++ [exc]
      if 5 ≤ errors.length then { st with errors := [] }
      else { st with errors := errors }

/-- Dispatcher-loop state: the buffer plus the trace of outbound `send`
calls made so far, each recorded as the payload handed over and the
outcome the network oracle produced for it. -/
structure RunState (R : Type) where
  buf : BufferState R
  sends : List (List R × SendResult R)
  deriving DecidableEq

/-- One `self.flush()` call inside `Buffer::run`: hand the buffered items
to the output, whose outcome is given by the oracle at the index of this
call, and update the buffer as `Buffer::flush` does. -/
def doFlush {R : Type} (oracle : Nat → SendResult R) (s : RunState R) : RunState R :=
  { buf := Buffer.flush s.buf (oracle s.sends.length)
    sends := s.sends ++ [(s.buf.items, oracle s.sends.length)] }

/-- `buffer.rs`, `Buffer::run`, the `match event` body: `Flush` flushes;
`Data(record)` pushes the record and flushes when a configured
`buffer_size` is reached. -/
def step {R : Type} (bufferSize : Option Nat) (oracle : Nat → SendResult R)
    (s : RunState R) : Event R → RunState R
  | Event.flush => doFlush oracle s
  | Event.data record =>
      let s' : RunState R := { s with buf := { s.buf with items := s.buf.items ++ [record] } }
      match bufferSize with
      | some maxBufferSize =>
          if maxBufferSize ≤ s'.buf.items.length then doFlush oracle s' else s'
      | none => s'

/-- The dispatcher starts with an empty buffer, no errors and no sends. -/
def initState {R : Type} : RunState R := ⟨⟨[], []⟩, []⟩

/-- The dispatcher loop of `Buffer::run`, run over the sequence of events
it processes before exiting.  Timed-out waits enter the loop body as
`Event.flush` (see `recvEvent`), so the event list covers every iteration. -/
def run {R : Type} (bufferSize : Option Nat) (oracle : Nat → SendResult R)
    (events : List (Event R)) : RunState R :=
  events.foldl (step bufferSize oracle) initState

/-- `Duration::checked_sub`: `none` when the subtrahend exceeds the
minuend. -/
def checkedSub (d e : Nat) : Option Nat := if e ≤ d then some (d - e) else none

/-- `buffer.rs`, `Buffer::run` lines 54-57: the wait deadline for this
iteration, from the configured `buffer_duration` and the time elapsed
since `last_send`.  `map` over the option then `unwrap_or(None)`. -/
def timeToWait (bufferDuration : Option Nat) (elapsed : Nat) : Option Nat :=
  (bufferDuration.map fun duration => checkedSub duration elapsed).getD none

/-- Outcome of the channel wait in one iteration of `Buffer::run`. -/
inductive RecvOutcome (R : Type) where
  | msg (e : Event R)
  | timeout
  | disconnected
  deriving DecidableEq

/-- `buffer.rs`, `Buffer::run` lines 59-71: the event the loop body
processes, `none` meaning the loop returns.  With no deadline the loop
calls `recv`, which cannot time out (that case is unreachable and mapped
to loop exit); with a deadline it calls `recv_timeout` and a `Timeout`
becomes `Event::Flush`. -/
def recvEvent {R : Type} (t : Option Nat) : RecvOutcome R → Option (Event R)
  | RecvOutcome.msg e => some e
  | RecvOutcome.timeout =>
      match t with
      | some _ => some Event.flush
      | none => none
  | RecvOutcome.disconnected => none

/-- `config.rs`, `enum FullBufferPolicy`. -/
inductive FullBufferPolicy where
  | wait
  | discard
  deriving DecidableEq

/-- Condition of the bounded channel at the moment a producer-side send
call resolves. -/
inductive ChanCond where
  | hasSpace
  | full
  | disconnected
  deriving DecidableEq

/-- `std::sync::mpsc::SendError<Event>`. -/
inductive SendErr (R : Type) where
  | sendError (e : Event R)
  deriving DecidableEq

/-- `std::sync::mpsc::TrySendError<Event>`. -/
inductive TrySendErr (R : Type) where
  | full (e : Event R)
  | disconnected (e : Event R)
  deriving DecidableEq

/-- `SyncSender::send`: blocks on a full queue until space appears, so it
errors exactly when the channel is disconnected. -/
def SyncSender.send {R : Type} (c : ChanCond) (e : Event R) : Option (SendErr R) :=
  match c with
  | ChanCond.disconnected => some (SendErr.sendError e)
  | _ => none

/-- `SyncSender::try_send`: never blocks; errors on a full queue and on a
disconnected channel. -/
def SyncSender.trySend {R : Type} (c : ChanCond) (e : Event R) : Option (TrySendErr R) :=
  match c with
  | ChanCond.disconnected => some (TrySendErr.disconnected e)
  | ChanCond.full => some (TrySendErr.full e)
  | ChanCond.hasSpace => none

/-- `result.rs` lines 74-78, `From<SendError<Event>> for Error`. -/
def Error.ofSendErr {R : Type} : SendErr R → Error R
  | SendErr.sendError e => Error.channelDisconnectedError e

/-- `result.rs` lines 79-86, `From<TrySendError<Event>> for Error`. -/
def Error.ofTrySendErr {R : Type} : TrySendErr R → Error R
  | TrySendErr.full e => Error.fullChannelError e
  | TrySendErr.disconnected e => Error.channelDisconnectedError e

/-- `batch.rs`, `struct BatchProcessor` (the channel sender is supplied
externally in the model).  GELF levels are their numeric values,
`Emergency = 0` the most severe through `Debug = 7`, compared by that
number as `serde_gelf` derives. -/
structure BatchProcessor where
  level : Nat
  fullBufferPolicy : FullBufferPolicy
  deriving DecidableEq

/-- `batch.rs` lines 195-203, `BatchProcessor::send`: forward records at
or above the configured severity (`self.level >= rec.level()`, i.e. the
record's numeric level is at most the configured one) with `send` or
`try_send` per policy, converting channel errors through the `From` impls.
Returns the call's result together with the list of events actually placed
in the queue. -/
def BatchProcessor.send {R : Type} (p : BatchProcessor) (recLevel : Nat) (rec : R)
    (c : ChanCond) : Except (Error R) Unit × List (Event R) :=
  if recLevel ≤ p.level then
    match p.fullBufferPolicy with
    | FullBufferPolicy.wait =>
        match SyncSender.send c (Event.data rec) with
        | some e => (Except.error (Error.ofSendErr e), [])
        | none => (Except.ok (), [Event.data rec])
    | FullBufferPolicy.discard =>
        match SyncSender.trySend c (Event.data rec) with
        | some e => (Except.error (Error.ofTrySendErr e), [])
        | none => (Except.ok (), [Event.data rec])
  else (Except.ok (), [])

/-- `batch.rs` lines 204-209, `BatchProcessor::flush`: blocking-send an
`Event::Flush` (then sleep two seconds, a pure delay with no state
effect). -/
def BatchProcessor.flush {R : Type} (p : BatchProcessor) (c : ChanCond) :
    Except (Error R) Unit × List (Event R) :=
  match p.fullBufferPolicy with
  | _ =>
      match SyncSender.send c (Event.flush : Event R) with
      | some e => (Except.error (Error.ofSendErr e), [])
      | none => (Except.ok (), [Event.flush])

/-- The value held by the `static mut BATCH_PROCESSOR` reference: the
no-op `NoProcessor` until `set_boxed_processor` installs a
`BatchProcessor`. -/
inductive BatchRef where
  | noProcessor
  | processor (p : BatchProcessor)
  deriving DecidableEq

/-- `batch.rs` line 21: the static is initialized to `&NoProcessor`, so
this is what `processor()` returns before `init` has ever run. -/
def batchProcessorInitial : BatchRef := BatchRef.noProcessor

/-- Dispatch of `Batch::send` through the trait object: `NoProcessor`
(`batch.rs` lines 163-166) returns `Ok(())` and enqueues nothing. -/
def Batch.send {R : Type} : BatchRef → Nat → R → ChanCond →
    Except (Error R) Unit × List (Event R)
  | BatchRef.noProcessor, _, _, _ => (Except.ok (), [])
  | BatchRef.processor p, recLevel, rec, c => BatchProcessor.send p recLevel rec c

/-- Dispatch of `Batch::flush` through the trait object: `NoProcessor`
(`batch.rs` lines 167-169) returns `Ok(())` and enqueues nothing. -/
def Batch.flush {R : Type} : BatchRef → ChanCond →
    Except (Error R) Unit × List (Event R)
  | BatchRef.noProcessor, _ => (Except.ok (), [])
  | BatchRef.processor p, c => BatchProcessor.flush p c

/-- Result of a call to `init`: success, a returned error, or a panic. -/
inductive InitOutcome (R : Type) where
  | ok
  | err (e : Error R)
  | panicked
  deriving DecidableEq

/-- `log::set_boxed_logger`: fails (with a `SetLoggerError`, opaque here)
exactly when a global logger has already been installed. -/
def setBoxedLogger (loggerAlreadySet : Bool) : Option Nat :=
  if loggerAlreadySet then some 0 else none

/-- `batch.rs` lines 84-96, `init`: `init_processor` and
`set_boxed_processor` always return `Ok`, and the result of
`log::set_boxed_logger` is `.unwrap()`ed, so a failure to bind the logging
facade panics instead of being returned. -/
def init (R : Type) (loggerAlreadySet : Bool) : InitOutcome R :=
  match setBoxedLogger loggerAlreadySet with
  | some _ => InitOutcome.panicked
  | none => InitOutcome.ok

/-- `output.rs`, the mutable state of `GelfTcpOutput` relevant to `send`:
the optional live stream, plus the trace of byte strings successfully
written and the number of `write_stream` calls made (the index into the
network oracle). -/
structure SendState (R : Type) where
  stream : Option Unit
  written : List String
  calls : Nat
  deriving DecidableEq

/-- Network oracle for the connection-level model: for the `i`-th
`write_stream` call, the outcome of the connect if one is attempted
(`none` = success, `some code` = I/O or TLS failure) and of the
`write_all` (`none` = success). -/
abbrev NetEnv := Nat → Option Nat × Option Nat

/-- `output.rs` lines 58-78, `GelfTcpOutput::write_stream`: connect lazily
when no stream is held (a connect failure leaves the stream absent and
propagates), and on a write error drop the stream so the next call
reconnects. -/
def GelfTcpOutput.writeStream {R : Type} (env : NetEnv) (s : SendState R)
    (bytes : String) : SendState R × Option (Error R) :=
  let s' : SendState R := { s with calls := s.calls + 1 }
  match s.stream with
  | none =>
      match (env s.calls).1 with
      | some code => (s', some (Error.ioError code))
      | none =>
          match (env s.calls).2 with
          | some code => ({ s' with stream := none }, some (Error.ioError code))
          | none =>
              ({ s' with stream := some (), written := s.written ++ [bytes] }, none)
  | some _ =>
      match (env s.calls).2 with
      | some code => ({ s' with stream := none }, some (Error.ioError code))
      | none => ({ s' with written := s.written ++ [bytes] }, none)

/-- `output.rs` lines 49-56, `GelfTcpOutput::send`: for each record, if
formatting succeeds write the bytes (`?` propagates a write failure,
aborting the rest of the batch); a record whose formatting fails is
silently skipped. -/
def GelfTcpOutput.send {R : Type} (fmt : R → Option String) (env : NetEnv) :
    SendState R → List R → SendState R × Option (Error R)
  | s, [] => (s, none)
  | s, rec :: rest =>
      match fmt rec with
      | some jdata =>
          match GelfTcpOutput.writeStream env s jdata with
          | (s', none) => GelfTcpOutput.send fmt env s' rest
          | (s', some e) => (s', some e)
      | none => GelfTcpOutput.send fmt env s rest

/-- `formatter.rs` lines 35-43, `GelfFormatter::format`: serialize the
record (extended with the static additional fields, folded into `toJson`
here), failing when JSON serialization fails, and append a newline plus an
optional NUL byte. -/
def GelfFormatter.format {R : Type} (toJson : R → Option String)
    (nullCharacter : Bool) (rec : R) : Option String :=
  (toJson rec).map fun j =>
    if nullCharacter then j ++ "\n\x00" else j ++ "\n"

/-- Concatenation of the payloads of the successful sends in a trace. -/
def okPayloads {R : Type} : List (List R × SendResult R) → List R
  | [] => []
  | (p, SendResult.ok) :: rest => p ++ okPayloads rest
  | (_, SendResult.err _) :: rest => okPayloads rest

/-- The records carried by the `Data` events of an event list, in order. -/
def dataRecords {R : Type} : List (Event R) → List R
  | [] => []
  | Event.data r :: rest => r :: dataRecords rest
  | Event.flush :: rest => dataRecords rest

/-- Payload handed to the outbound connection by the `i`-th send of a
trace (`[]` out of range). -/
def payloadAt {R : Type} (trace : List (List R × SendResult R)) (i : Nat) : List R :=
  (trace.getD i ([], SendResult.ok)).1

/-- The `i`-th send of a trace succeeded (out-of-range defaults to `ok`). -/
def okAt {R : Type} (trace : List (List R × SendResult R)) (i : Nat) : Prop :=
  (trace.getD i ([], SendResult.ok)).2 = SendResult.ok

instance {R : Type} [DecidableEq R] (trace : List (List R × SendResult R)) (i : Nat) :
    Decidable (okAt trace i) := by
  unfold okAt; infer_instance

/-- Invariant of the dispatcher loop: the payload of a failed send is a
prefix of the payload of the send right after it, and the payload of a
trailing failed send is a prefix of what is currently buffered. -/
def TraceInv {R : Type} (s : RunState R) : Prop :=
  (∀ k, k + 1 < s.sends.length → ¬ okAt s.sends k →
      payloadAt s.sends k <+: payloadAt s.sends (k + 1)) ∧
  (∀ k, k + 1 = s.sends.length → ¬ okAt s.sends k →
      payloadAt s.sends k <+: s.buf.items)

/-! ### Helper lemmas -/

lemma flush_ok_state {R : Type} (st : BufferState R) :
    Buffer.flush st SendResult.ok = { st with items := [] } := rfl

lemma flush_err_items {R : Type} (st : BufferState R) (e : Error R) :
    (Buffer.flush st (SendResult.err e)).items = st.items := by
  simp only [Buffer.flush]
  split <;> rfl

lemma payloadAt_append_left {R : Type} (t : List (List R × SendResult R))
    (x : List R × SendResult R) (i : Nat) (h : i < t.length) :
    payloadAt (t ++ [x]) i = payloadAt t i := by
  unfold payloadAt
  rw [List.getD_append _ _ _ _ h]

lemma payloadAt_append_last {R : Type} (t : List (List R × SendResult R))
    (x : List R × SendResult R) :
    payloadAt (t ++ [x]) t.length = x.1 := by
  unfold payloadAt
  rw [List.getD_append_right _ _ _ _ le_rfl]
  simp

lemma okAt_append_left {R : Type} (t : List (List R × SendResult R))
    (x : List R × SendResult R) (i : Nat) (h : i < t.length) :
    okAt (t ++ [x]) i ↔ okAt t i := by
  unfold okAt
  rw [List.getD_append _ _ _ _ h]

lemma okAt_append_last {R : Type} (t : List (List R × SendResult R))
    (x : List R × SendResult R) :
    okAt (t ++ [x]) t.length ↔ x.2 = SendResult.ok := by
  unfold okAt
  rw [List.getD_append_right _ _ _ _ le_rfl]
  simp

lemma doFlush_sends {R : Type} (oracle : Nat → SendResult R) (s : RunState R) :
    (doFlush oracle s).sends
      = s.sends ++ [(s.buf.items, oracle s.sends.length)] := rfl

lemma doFlush_buf {R : Type} (oracle : Nat → SendResult R) (s : RunState R) :
    (doFlush oracle s).buf = Buffer.flush s.buf (oracle s.sends.length) := rfl

lemma traceInv_doFlush {R : Type} (oracle : Nat → SendResult R) (s : RunState R)
    (h : TraceInv s) : TraceInv (doFlush oracle s) := by
  obtain ⟨hadj, hpend⟩ := h
  constructor
  · intro k hk hfail
    rw [doFlush_sends] at hk hfail ⊢
    simp only [List.length_append, List.length_singleton] at hk
    have hk' : k < s.sends.length := by omega
    rw [payloadAt_append_left _ _ _ hk', okAt_append_left _ _ _ hk'] at *
    rcases Nat.lt_or_ge (k + 1) s.sends.length with hlt | hge
    · rw [payloadAt_append_left _ _ _ hlt]
      exact hadj k hlt hfail
    · have heq : k + 1 = s.sends.length := by omega
      rw [heq, payloadAt_append_last]
      exact hpend k heq hfail
  · intro k hk hfail
    rw [doFlush_sends] at hk hfail ⊢
    simp only [List.length_append, List.length_singleton] at hk
    have heq : k = s.sends.length := by omega
    subst heq
    rw [okAt_append_last] at hfail
    rw [payloadAt_append_last]
    rw [doFlush_buf]
    cases hres : oracle s.sends.length with
    | ok => exact absurd hres hfail
    | err e =>
        simp only [flush_err_items]
        exact ⟨[], List.append_nil _⟩

lemma traceInv_push {R : Type} (s : RunState R) (r : R) (h : TraceInv s) :
    TraceInv { s with buf := { s.buf with items := s.buf.items ++ [r] } } := by
  obtain ⟨hadj, hpend⟩ := h
  exact ⟨hadj, fun k hk hf => (hpend k hk hf).trans ⟨[r], rfl⟩⟩

lemma traceInv_step {R : Type} (bufferSize : Option Nat) (oracle : Nat → SendResult R)
    (s : RunState R) (e : Event R) (h : TraceInv s) : TraceInv (step bufferSize oracle s e) := by
  cases e with
  | flush => exact traceInv_doFlush oracle s h
  | data r =>
      have h' := traceInv_push s r h
      cases bufferSize with
      | none => exact h'
      | some k =>
          simp only [step]
          split
          · exact traceInv_doFlush oracle _ h'
          · exact h'

lemma traceInv_foldl {R : Type} (bufferSize : Option Nat) (oracle : Nat → SendResult R) :
    ∀ (events : List (Event R)) (s : RunState R),
      TraceInv s → TraceInv (events.foldl (step bufferSize oracle) s)
  | [], _, h => h
  | e :: rest, s, h =>
      traceInv_foldl bufferSize oracle rest _ (traceInv_step bufferSize oracle s e h)

lemma traceInv_initState {R : Type} : TraceInv (initState (R := R)) := by
  constructor <;> intro k hk <;> simp [initState] at hk

lemma traceInv_run {R : Type} (bufferSize : Option Nat) (oracle : Nat → SendResult R)
    (events : List (Event R)) : TraceInv (run bufferSize oracle events) :=
  traceInv_foldl bufferSize oracle events initState traceInv_initState

lemma traceInv_chain {R : Type} {s : RunState R} (h : TraceInv s) (i : Nat) :
    ∀ j, i ≤ j → j < s.sends.length →
      (∀ k, k < j → i ≤ k → ¬ okAt s.sends k) →
      payloadAt s.sends i <+: payloadAt s.sends j := by
  intro j hij
  induction j, hij using Nat.le_induction with
  | base =>
      intro _ _
      exact ⟨[], List.append_nil _⟩
  | succ j hij ih =>
      intro hlen hfails
      have hstep : payloadAt s.sends j <+: payloadAt s.sends (j + 1) :=
        h.1 j hlen (hfails j (Nat.lt_succ_self j) hij)
      exact (ih (by omega) fun k hk hik => hfails k (by omega) hik).trans hstep

lemma okPayloads_append {R : Type} (a b : List (List R × SendResult R)) :
    okPayloads (a ++ b) = okPayloads a ++ okPayloads b := by
  induction a with
  | nil => rfl
  | cons x rest ih =>
      obtain ⟨p, res⟩ := x
      cases res <;> simp [okPayloads, ih]

lemma sent_doFlush {R : Type} (oracle : Nat → SendResult R) (s : RunState R) :
    okPayloads (doFlush oracle s).sends ++ (doFlush oracle s).buf.items
      = okPayloads s.sends ++ s.buf.items := by
  rw [doFlush_sends, doFlush_buf, okPayloads_append]
  cases hres : oracle s.sends.length with
  | ok => simp [okPayloads, Buffer.flush]
  | err e => simp [okPayloads, flush_err_items]

lemma sent_step {R : Type} (bufferSize : Option Nat) (oracle : Nat → SendResult R)
    (s : RunState R) (e : Event R) :
    okPayloads (step bufferSize oracle s e).sends ++ (step bufferSize oracle s e).buf.items
      = okPayloads s.sends ++ s.buf.items ++ dataRecords [e] := by
  cases e with
  | flush => simpa [dataRecords] using sent_doFlush oracle s
  | data r =>
      have hpush :
          okPayloads s.sends ++ (s.buf.items ++ [r])
            = okPayloads s.sends ++ s.buf.items ++ dataRecords [Event.data r] := by
        simp [dataRecords]
      cases bufferSize with
      | none => simpa [step] using hpush
      | some k =>
          simp only [step]
          split
          · rw [sent_doFlush]
            simpa using hpush
          · simpa using hpush

lemma sent_foldl {R : Type} (bufferSize : Option Nat) (oracle : Nat → SendResult R) :
    ∀ (events : List (Event R)) (s : RunState R),
      okPayloads (events.foldl (step bufferSize oracle) s).sends
          ++ (events.foldl (step bufferSize oracle) s).buf.items
        = okPayloads s.sends ++ s.buf.items ++ dataRecords events
  | [], s => by simp [dataRecords]
  | e :: rest, s => by
      rw [List.foldl_cons, sent_foldl bufferSize oracle rest, sent_step]
      cases e <;> simp [dataRecords]

lemma run_data_fill {R : Type} (k : Nat) (oracle : Nat → SendResult R) :
    ∀ (ds : List R) (s : RunState R), ds ≠ [] →
      s.buf.items.length + ds.length = k →
      (ds.map Event.data).foldl (step (some k) oracle) s
        = doFlush oracle { s with buf := { s.buf with items := s.buf.items ++ ds } }
  | [], _, hne, _ => absurd rfl hne
  | d :: rest, s, _, hlen => by
      cases rest with
      | nil =>
          have hlen1 : s.buf.items.length + 1 = k := by simpa using hlen
          have hstep : step (some k) oracle s (Event.data d)
              = doFlush oracle { s with buf := { s.buf with items := s.buf.items ++ [d] } } := by
            simp only [step]
            split
            · rfl
            · rename_i hno
              exact absurd (by simp; omega) hno
          simpa using hstep
      | cons d2 rest2 =>
          have hlen' :
              (s.buf.items ++ [d]).length + (d2 :: rest2).length = k := by
            simp at hlen ⊢
            omega
          have hstep : step (some k) oracle s (Event.data d)
              = { s with buf := { s.buf with items := s.buf.items ++ [d] } } := by
            simp only [step]
            split
            · rename_i hyes
              exact absurd hyes (by simp at hlen ⊢; omega)
            · rfl
          rw [List.map_cons, List.foldl_cons, hstep,
            run_data_fill k oracle (d2 :: rest2) _ (by simp) hlen']
          simp

lemma writeStream_allOk {R : Type} (env : NetEnv) (s : SendState R) (b : String)
    (h : env s.calls = (none, none)) :
    GelfTcpOutput.writeStream env s b
      = (⟨some (), s.written ++ [b], s.calls + 1⟩, none) := by
  cases hs : s.stream with
  | none => simp [GelfTcpOutput.writeStream, hs, h]
  | some u => cases u; simp [GelfTcpOutput.writeStream, hs, h]

lemma send_allOk {R : Type} (fmt : R → Option String) (env : NetEnv)
    (h : ∀ i, env i = (none, none)) :
    ∀ (records : List R) (s : SendState R),
      (GelfTcpOutput.send fmt env s records).2 = none ∧
      ((GelfTcpOutput.send fmt env s records).1).written
          = s.written ++ records.filterMap fmt
  | [], s => by simp [GelfTcpOutput.send]
  | rec :: rest, s => by
      cases hf : fmt rec with
      | none =>
          have ih := send_allOk fmt env h rest s
          simpa [GelfTcpOutput.send, hf] using ih
      | some jdata =>
          have hw := writeStream_allOk env s jdata (h s.calls)
          have ih := send_allOk fmt env h rest ⟨some (), s.written ++ [jdata], s.calls + 1⟩
          simp only [GelfTcpOutput.send, hf, hw]
          refine ⟨ih.1, ?_⟩
          rw [ih.2]
          simp [List.filterMap_cons, hf]

/-! ### Claims -/

/-- Claim C1: for every flush in which the outbound send fails, the
dispatcher's buffered record sequence is unchanged (no record dropped),
and those records appear, in order (as a prefix), in the payload handed to
the outbound connection at the next flush whose send succeeds. -/
theorem claim1_failed_flush_keeps_records :
    (∀ (R : Type) (st : BufferState R) (e : Error R),
        (Buffer.flush st (SendResult.err e)).items = st.items) ∧
    (∀ (R : Type) (bufferSize : Option Nat) (oracle : Nat → SendResult R)
        (events : List (Event R)) (i j : Nat),
        i ≤ j → j < (run bufferSize oracle events).sends.length →
        (∀ k, k < j → i ≤ k → ¬ okAt (run bufferSize oracle events).sends k) →
        okAt (run bufferSize oracle events).sends j →
        payloadAt (run bufferSize oracle events).sends i
          <+: payloadAt (run bufferSize oracle events).sends j) :=
  ⟨fun _ st e => flush_err_items st e,
   fun _ bufferSize oracle events i j hij hj hfails _ =>
     traceInv_chain (traceInv_run bufferSize oracle events) i j hij hj hfails⟩

/-- Witness for C1: with an oracle failing the first send and succeeding
the second, the first (failed) payload `[1]` is a prefix of the second
(successful) payload `[1, 2]`. -/
theorem claim1_witness :
    (0 : Nat) ≤ 1 ∧
    1 < (run none (fun n => if n = 0 then SendResult.err (Error.ioError 7) else SendResult.ok)
          [Event.data (1 : Nat), Event.flush, Event.data 2, Event.flush]).sends.length ∧
    payloadAt
        (run none (fun n => if n = 0 then SendResult.err (Error.ioError 7) else SendResult.ok)
          [Event.data (1 : Nat), Event.flush, Event.data 2, Event.flush]).sends 0
      <+: payloadAt
        (run none (fun n => if n = 0 then SendResult.err (Error.ioError 7) else SendResult.ok)
          [Event.data (1 : Nat), Event.flush, Event.data 2, Event.flush]).sends 1 :=
  ⟨by decide, by decide,
   claim1_failed_flush_keeps_records.2 Nat none _ _ 0 1 (by decide) (by decide)
     (by decide) (by decide)⟩

/-- Counterexample to C2 as stated: in a run whose first send fails and
whose second send succeeds, the send at index 1 succeeded, yet the error
list is not reset to zero afterwards — `Buffer::flush` never touches
`errors` on the success path. -/
theorem claim2_counterexample :
    okAt (run none (fun n => if n = 0 then SendResult.err (Error.ioError 7) else SendResult.ok)
        [Event.data (1 : Nat), Event.flush, Event.data 2, Event.flush]).sends 1 ∧
    (run none (fun n => if n = 0 then SendResult.err (Error.ioError 7) else SendResult.ok)
        [Event.data (1 : Nat), Event.flush, Event.data 2, Event.flush]).buf.errors ≠ [] := by
  decide

/-- Claim C2 (amended): after every flush whose delivery attempt succeeds
the batch buffer is empty, and the error list is left unchanged — it is
reset only when it reaches five entries during a failed flush. -/
theorem claim2_success_clears_buffer :
    ∀ (R : Type) (st : BufferState R),
      (Buffer.flush st SendResult.ok).items = [] ∧
      (Buffer.flush st SendResult.ok).errors = st.errors :=
  fun _ _ => ⟨rfl, rfl⟩

/-- Counterexample to C3 as stated: with a configured age limit of 100, an
empty buffer and no time elapsed, the claim says the deadline is `None`
(buffer empty) but the code computes `Some 100` — buffer emptiness is
never consulted. -/
theorem claim3_counterexample :
    ¬ (timeToWait (some 100) 0 = none
        ↔ ((some 100 : Option Nat) = none ∨ ([] : List Nat) = [])) := by
  decide

/-- Claim C3 (amended): the channel wait deadline is `None` exactly when
no max-batch-age is configured or the time elapsed since the last loop
iteration already exceeds the age limit (buffer emptiness is not
consulted); otherwise it equals the remaining time until the age limit
expires; and when the timed wait times out the loop body processes a
`Flush`, flushing the buffer immediately. -/
theorem claim3_wait_deadline :
    (∀ (d elapsed : Nat), timeToWait (some d) elapsed = none ↔ d < elapsed) ∧
    (∀ (d elapsed : Nat), elapsed ≤ d →
        timeToWait (some d) elapsed = some (d - elapsed)) ∧
    (∀ elapsed : Nat, timeToWait none elapsed = none) ∧
    (∀ (R : Type) (d : Nat),
        recvEvent (R := R) (some d) RecvOutcome.timeout = some Event.flush) ∧
    (∀ (R : Type) (bufferSize : Option Nat) (oracle : Nat → SendResult R) (s : RunState R),
        step bufferSize oracle s Event.flush = doFlush oracle s) := by
  refine ⟨?_, ?_, fun _ => rfl, fun _ _ => rfl, fun _ _ _ _ => rfl⟩
  · intro d elapsed
    show (if elapsed ≤ d then some (d - elapsed) else none : Option Nat) = none ↔ d < elapsed
    split <;> rename_i h <;> simp <;> omega
  · intro d elapsed h
    show (if elapsed ≤ d then some (d - elapsed) else none : Option Nat) = some (d - elapsed)
    rw [if_pos h]

/-- Witness for C3 (amended): an age limit of 5 with 3 elapsed yields a
deadline of 2. -/
theorem claim3_witness :
    (3 : Nat) ≤ 5 ∧ timeToWait (some 5) 3 = some 2 :=
  ⟨by decide, claim3_wait_deadline.2.1 5 3 (by decide)⟩

/-- Claim C4 (the code contradicts it): when the logging facade is already
bound, `init` panics (`log::set_boxed_logger(..).unwrap()`) instead of
returning the error; it never returns an `Err`. -/
theorem claim4_init_panics :
    init Nat true = InitOutcome.panicked ∧
    (∀ e : Error Nat, init Nat true ≠ InitOutcome.err e) ∧
    init Nat false = InitOutcome.ok :=
  ⟨rfl, fun _ h => InitOutcome.noConfusion h, rfl⟩

/-- Claim C5: with a configured max batch size `k` and no explicit flush
command, submitting exactly `k` records makes the dispatcher flush
immediately, and the outbound connection receives exactly those `k`
records (one send, with exactly that payload). -/
theorem claim5_size_triggered_flush :
    ∀ (R : Type) (k : Nat) (oracle : Nat → SendResult R) (records : List R),
      0 < k → records.length = k →
      (run (some k) oracle (records.map Event.data)).sends
        = [(records, oracle 0)] := by
  intro R k oracle records hk hlen
  have hne : records ≠ [] := by
    intro h
    subst h
    simp at hlen
    omega
  have hfill := run_data_fill k oracle records initState hne (by simpa [initState] using hlen)
  unfold run
  rw [hfill]
  simp [doFlush, initState]

/-- Witness for C5: `k = 2`, records `[1, 2]`, one send of `[1, 2]`. -/
theorem claim5_witness :
    (0 : Nat) < 2 ∧ ([1, 2] : List Nat).length = 2 ∧
    (run (some 2) (fun _ => SendResult.ok) (([1, 2] : List Nat).map Event.data)).sends
      = [([1, 2], SendResult.ok)] :=
  ⟨by decide, by decide,
   claim5_size_triggered_flush Nat 2 (fun _ => SendResult.ok) [1, 2] (by decide) (by decide)⟩

/-- Counterexample to C6 as stated: a record below the severity threshold
(numeric level 5 against configured level 3) is filtered before reaching
the channel, so `send` under `Wait` returns `Ok` even though the channel
is disconnected — the claimed "Disconnected exactly when the channel is
closed" fails. -/
theorem claim6_counterexample :
    ¬ (((BatchProcessor.send ⟨3, FullBufferPolicy.wait⟩ 5 (0 : Nat)
            ChanCond.disconnected).1
          = Except.error (Error.channelDisconnectedError (Event.data 0)))
        ↔ ChanCond.disconnected = ChanCond.disconnected) := by
  intro h
  have h2 := h.mpr rfl
  have h3 : (BatchProcessor.send ⟨3, FullBufferPolicy.wait⟩ 5 (0 : Nat)
      ChanCond.disconnected).1 = Except.ok () := rfl
  rw [h3] at h2
  exact Except.noConfusion h2

/-- Claim C6 (amended): for records that pass the severity filter (record
level at most the configured level), `send` under `Wait` performs a
blocking channel send and returns the `Disconnected` error exactly when
the channel is closed, and under `Discard` performs a non-blocking send
and returns the `FullChannel` error exactly when the queue is full, the
record then being dropped (nothing enqueued); a record failing the filter
returns `Ok` without touching the channel. -/
theorem claim6_submit_policies :
    (∀ (R : Type) (lvl recLevel : Nat) (rec : R) (c : ChanCond),
        recLevel ≤ lvl →
        (((BatchProcessor.send ⟨lvl, FullBufferPolicy.wait⟩ recLevel rec c).1
            = Except.error (Error.channelDisconnectedError (Event.data rec))
          ↔ c = ChanCond.disconnected) ∧
         ((BatchProcessor.send ⟨lvl, FullBufferPolicy.discard⟩ recLevel rec c).1
            = Except.error (Error.fullChannelError (Event.data rec))
          ↔ c = ChanCond.full) ∧
         (c = ChanCond.full →
            BatchProcessor.send ⟨lvl, FullBufferPolicy.discard⟩ recLevel rec c
              = (Except.error (Error.fullChannelError (Event.data rec)), [])))) ∧
    (∀ (R : Type) (lvl recLevel : Nat) (rec : R) (pol : FullBufferPolicy) (c : ChanCond),
        lvl < recLevel →
        BatchProcessor.send ⟨lvl, pol⟩ recLevel rec c = (Except.ok (), [])) := by
  constructor
  · intro R lvl recLevel rec c hle
    refine ⟨?_, ?_, ?_⟩ <;> cases c <;>
      simp [BatchProcessor.send, SyncSender.send, SyncSender.trySend,
        Error.ofSendErr, Error.ofTrySendErr, hle]
  · intro R lvl recLevel rec pol c hlt
    have hnot : ¬ recLevel ≤ lvl := by omega
    simp [BatchProcessor.send, hnot]

/-- Witness for C6 (amended): a record at level 3 against configured level
5 on a disconnected channel under `Wait` yields the `Disconnected`
error. -/
theorem claim6_witness :
    (3 : Nat) ≤ 5 ∧
    (BatchProcessor.send ⟨5, FullBufferPolicy.wait⟩ 3 (0 : Nat) ChanCond.disconnected).1
      = Except.error (Error.channelDisconnectedError (Event.data 0)) :=
  ⟨by decide,
   ((claim6_submit_policies.1 Nat 5 3 0 ChanCond.disconnected (by decide)).1).mpr rfl⟩

/-- Claim C7: the records delivered across all successful flushes,
concatenated in order, followed by what is still buffered, are exactly the
records of the `Data` commands in the order received — so successful
flushes deliver consecutive FIFO runs, each in insertion order. -/
theorem claim7_fifo_ordering :
    ∀ (R : Type) (bufferSize : Option Nat) (oracle : Nat → SendResult R)
      (events : List (Event R)),
      okPayloads (run bufferSize oracle events).sends
          ++ (run bufferSize oracle events).buf.items
        = dataRecords events := by
  intro R bufferSize oracle events
  have h := sent_foldl bufferSize oracle events initState
  simpa [run, initState, okPayloads] using h

/-- Claim C8: during a batch delivery in which every write succeeds, a
record whose formatting fails is skipped while every remaining record is
still formatted and written, and the send returns no error — a formatting
failure alone never aborts the batch. -/
theorem claim8_format_failure_skipped :
    ∀ (R : Type) (fmt : R → Option String) (env : NetEnv) (s : SendState R)
      (records : List R),
      (∀ i, env i = (none, none)) →
      (GelfTcpOutput.send fmt env s records).2 = none ∧
      ((GelfTcpOutput.send fmt env s records).1).written
        = s.written ++ records.filterMap fmt :=
  fun _ fmt env s records h => send_allOk fmt env h records s

/-- Witness for C8: record 1 fails to format and is skipped; records 0 and
2 are still written and no error is returned. -/
theorem claim8_witness :
    (GelfTcpOutput.send (fun n : Nat => if n = 1 then none else some "r")
        (fun _ => (none, none)) ⟨none, [], 0⟩ [0, 1, 2]).2 = none ∧
    ((GelfTcpOutput.send (fun n : Nat => if n = 1 then none else some "r")
        (fun _ => (none, none)) ⟨none, [], 0⟩ [0, 1, 2]).1).written
      = ["r", "r"] := by
  have h := claim8_format_failure_skipped Nat (fun n => if n = 1 then none else some "r")
    (fun _ => (none, none)) ⟨none, [], 0⟩ [0, 1, 2] (fun _ => rfl)
  refine ⟨h.1, ?_⟩
  rw [h.2]
  decide

/-- Claim C9: before `init` has ever run the global processor is the no-op
`NoProcessor`, whose `send` and `flush` return `Ok(())` and enqueue
nothing — records are silently discarded, never an error. -/
theorem claim9_uninitialized_noop :
    batchProcessorInitial = BatchRef.noProcessor ∧
    (∀ (R : Type) (recLevel : Nat) (rec : R) (c : ChanCond),
        Batch.send BatchRef.noProcessor recLevel rec c
          = ((Except.ok () : Except (Error R) Unit), [])) ∧
    (∀ (R : Type) (c : ChanCond),
        Batch.flush (R := R) BatchRef.noProcessor c = (Except.ok (), [])) :=
  ⟨rfl, fun _ _ _ _ => rfl, fun _ _ => rfl⟩

/-- Claim C10: the outbound connection's `send` on an empty record
sequence returns `Ok` with the state untouched — no connect attempt, no
bytes written, stream field unchanged — and a flush of an empty buffer
(whose send therefore succeeds) leaves the buffer state unchanged. -/
theorem claim10_empty_send_no_network :
    (∀ (R : Type) (fmt : R → Option String) (env : NetEnv) (s : SendState R),
        GelfTcpOutput.send fmt env s [] = (s, none)) ∧
    (∀ (R : Type) (st : BufferState R), st.items = [] →
        Buffer.flush st SendResult.ok = st) := by
  refine ⟨fun _ _ _ _ => rfl, ?_⟩
  intro R st h
  cases st with
  | mk items errors =>
      cases h
      rfl

/-- Witness for C10: flushing the empty buffer state leaves it unchanged. -/
theorem claim10_witness :
    (⟨[], []⟩ : BufferState Nat).items = [] ∧
    Buffer.flush (⟨[], []⟩ : BufferState Nat) SendResult.ok = ⟨[], []⟩ :=
  ⟨rfl, claim10_empty_send_no_network.2 Nat ⟨[], []⟩ rfl⟩

end GelfLogger
